import Mathlib

/-!
Shallow embedding of the activity-detection core of the ISS APRS tracking
bot (issaprs.py).

Records scraped from the upstream page are Python lists of strings
[callsign, timestamp, link]; they are modelled as List String.  The
per-subscription CSV file is modelled by its parsed content, an
Option (List Heard): none when the file does not exist, some rows when it
exists (writing a CSV row and reading it back round-trips the row, so the
file content and its parse are identified).  The wall clock (datetime.now)
is passed explicitly as a rational number of seconds since the Unix epoch,
and Python floats are modelled as rationals.  A raised Python exception is
modelled by an Option-valued result: none means the call raised.  The
logging print calls and the second page fetch done by inform_last_heard in
the fired branch have no effect on the returned boolean or on the stored
state, and are omitted.
-/

/-- A last-heard record as built by get_last_heard and as read back from a
CSV row: a Python list of strings [callsign, timestamp, link]. -/
abbrev Heard := List String

/-- The content of one per-subscription database file: none when the file
does not exist on disk, some rows when it exists. -/
abbrev DBFile := Option (List Heard)

-- Minute, hour and day in seconds (module constants of issaprs.py).

def SECOND : ℚ := 1

def MINUTE : ℚ := SECOND * 60

def HOUR : ℚ := MINUTE * 60

def DAY : ℚ := HOUR * 24

/-- Number of days of month m of year y in the proleptic Gregorian
calendar, as validated by the datetime constructor. -/
def daysInMonth (y m : ℤ) : ℤ :=
  if m = 2 then (if y % 4 = 0 ∧ (y % 100 ≠ 0 ∨ y % 400 = 0) then 29 else 28)
  else if m = 4 ∨ m = 6 ∨ m = 9 ∨ m = 11 then 30
  else 31

/-- Days from 1970-01-01 to the civil date y-m-d (standard civil-calendar
day count).  For the year range datetime accepts (y at least 1) all the
intermediate quantities are nonnegative, so truncating integer division
agrees with floor division here. -/
def daysFromCivil (y m d : ℤ) : ℤ :=
  let yAdj := y - (if m ≤ 2 then 1 else 0)
  let era := yAdj / 400
  let yoe := yAdj - era * 400
  let mp := (m + 9) % 12
  let doy := (153 * mp + 2) / 5 + d - 1
  let doe := yoe * 365 + yoe / 4 - yoe / 100 + doy
  era * 146097 + doe - 719468

/-- Numeric value of a digit character. -/
def digitVal (c : Char) : ℕ := c.toNat - 48

/-- datetime.strptime(ts, "%Y%m%d%H%M%S").replace(tzinfo=utc).timestamp()
on the canonical fixed-width 14-digit form produced by the upstream page:
seconds since the Unix epoch, or none when datetime raises ValueError
(wrong shape or out-of-range calendar fields). -/
def parseTimestamp (s : String) : Option ℤ :=
  match s.toList with
  | [y1, y2, y3, y4, o1, o2, d1, d2, h1, h2, i1, i2, e1, e2] =>
    if List.all [y1, y2, y3, y4, o1, o2, d1, d2, h1, h2, i1, i2, e1, e2] Char.isDigit then
      let y : ℤ := (digitVal y1 * 1000 + digitVal y2 * 100 + digitVal y3 * 10 + digitVal y4 : ℕ)
      let mo : ℤ := (digitVal o1 * 10 + digitVal o2 : ℕ)
      let da : ℤ := (digitVal d1 * 10 + digitVal d2 : ℕ)
      let ho : ℤ := (digitVal h1 * 10 + digitVal h2 : ℕ)
      let mi : ℤ := (digitVal i1 * 10 + digitVal i2 : ℕ)
      let se : ℤ := (digitVal e1 * 10 + digitVal e2 : ℕ)
      if 1 ≤ y ∧ 1 ≤ mo ∧ mo ≤ 12 ∧ 1 ≤ da ∧ da ≤ daysInMonth y mo ∧
          ho ≤ 23 ∧ mi ≤ 59 ∧ se ≤ 59 then
        some (daysFromCivil y mo da * 86400 + ho * 3600 + mi * 60 + se)
      else none
    else none
  | _ => none

/-- calculate_elapsed_time: parses the timestamp and returns how many
seconds have passed between it and the wall-clock instant now; none when
strptime raises. -/
def calculate_elapsed_time (now : ℚ) (timestamp : String) : Option ℚ :=
  (parseTimestamp timestamp).map (fun t => now - (t : ℚ))

/-- The round builtin of Python on an exact rational: round half to even.
Rat.floor is used rather than the floor-ring bracket so that the
definition evaluates by kernel reduction; the two agree definitionally. -/
def pyRound (q : ℚ) : ℤ :=
  let f := Rat.floor q
  let r := q - (f : ℚ)
  if (1 : ℚ) / 2 < r then f + 1
  else if r < (1 : ℚ) / 2 then f
  else if f % 2 = 0 then f else f + 1

/-- The minutes block of print_elapsed_time; none when the block falls
through without returning. -/
def minutesBranch (delta_in_sec : ℚ) : Option String :=
  if delta_in_sec < HOUR then
    let delta_in_min := pyRound (delta_in_sec / MINUTE)
    if delta_in_min = 1 then some "1 minute"
    else if 1 < delta_in_min then some (toString delta_in_min ++ " minutes")
    else none
  else none

/-- The hours block of print_elapsed_time; none when the block falls
through without returning. -/
def hoursBranch (delta_in_sec : ℚ) : Option String :=
  if delta_in_sec < DAY then
    let delta_in_hour := pyRound (delta_in_sec / HOUR)
    if delta_in_hour = 1 then some "1 hour"
    else if 1 < delta_in_hour then some (toString delta_in_hour ++ " hours")
    else none
  else none

/-- The days block of print_elapsed_time; none when the block falls
through without returning. -/
def daysBranch (delta_in_sec : ℚ) : Option String :=
  if delta_in_sec > DAY then
    let delta_in_day := pyRound (delta_in_sec / DAY)
    if delta_in_day = 1 then some "1 day"
    else if 1 < delta_in_day then some (toString delta_in_day ++ " days")
    else none
  else none

/-- print_elapsed_time: human-readable rendering of a duration.  The
Python function is a cascade of guarded blocks each of which may return;
when control falls off the end the function returns None, modelled as
none.  The seconds block always returns when its guard holds, so it is an
if-chain; the later blocks can fall through into one another. -/
def print_elapsed_time (delta_in_sec : ℚ) : Option String :=
  -- Parse seconds
  if delta_in_sec = SECOND then some "1 second"
  else if delta_in_sec < MINUTE then some (toString (pyRound delta_in_sec) ++ " seconds")
  else
    -- Parse minutes, hours, days: first block that returns wins
    match minutesBranch delta_in_sec with
    | some s => some s
    | none =>
      match hoursBranch delta_in_sec with
      | some s => some s
      | none => daysBranch delta_in_sec

-- Database functions.  Python keys the store by a file path derived from
-- the subscription key; every operation touches only that one file, so the
-- store is modelled per key by the content of its file.

/-- user_db_path: path of the database file of one subscription key. -/
def user_db_path (user : String) (db_type : String) : String :=
  "db/" ++ user ++ "-" ++ db_type ++ ".csv"

/-- is_entry_in_db: the latest entry in the database file equals the
current entry; false when the file does not exist (and also when it exists
but holds no row, since Python then compares None to a list). -/
def is_entry_in_db (db : DBFile) (entry : Heard) : Bool :=
  match db with
  | none => false
  | some rows => decide (rows.getLast? = some entry)

/-- save_last_heard: appends the current record to the file (creating the
file when absent), unless it already equals the last stored row. -/
def save_last_heard (db : DBFile) (current : Heard) : DBFile :=
  if is_entry_in_db db current then db
  else some (db.getD [] ++ [current])

/-- read_previously_heard, on the content of an existing file: the last
row, or the empty list when the file holds no row. -/
def read_previously_heard (rows : List Heard) : Heard :=
  (rows.getLast?).getD []

/-- user_has_db: whether the database file of the key exists. -/
def user_has_db (db : DBFile) : Bool :=
  db.isSome

/-- create_db_for_user: initializes the database of the key with the
current station (a logging print plus save_last_heard). -/
def create_db_for_user (db : DBFile) (current : Heard) : DBFile :=
  save_last_heard db current

/-- os.remove on the database file: deletes the file, raising when the
file does not exist. -/
def os_remove (db : DBFile) : Except Unit DBFile :=
  match db with
  | none => Except.error ()
  | some _ => Except.ok none

/-- delete_user_db: given a user, delete its database file; guarded by
user_has_db, so a missing file is left alone rather than making os.remove
raise. -/
def delete_user_db (db : DBFile) : Except Unit DBFile :=
  if user_has_db db then os_remove db
  else Except.ok db

/-- new_activity: there has been new APRS activity heard after some time
of inactivity.  Python first computes the elapsed time from the timestamp
field previous[1] (raising on a missing field or an unparsable timestamp),
then returns True exactly when the record changed and the elapsed time
exceeds the threshold. -/
def new_activity (now : ℚ) (previous current : Heard) (threshold : ℚ) : Option Bool :=
  (previous[1]?).bind fun ts =>
    (calculate_elapsed_time now ts).bind fun elapsed_time =>
      if previous ≠ current then
        if elapsed_time > threshold then some true
        else some false
      else some false

/-- check_activity: one tracking tick.  The fetched record is the
parameter current_station; the result is the fired boolean paired with the
database file content after the tick, or none when the tick raised. -/
def check_activity (now : ℚ) (db : DBFile) (current_station : Heard) (threshold : ℚ) :
    Option (Bool × DBFile) :=
  let db1 := if user_has_db db then db else create_db_for_user db current_station
  -- db1 is always an existing file here: creation just wrote a row
  let previous_station := read_previously_heard (db1.getD [])
  (new_activity now previous_station current_station threshold).bind fun fired =>
    if fired then some (true, save_last_heard db1 current_station)
    else some (false, save_last_heard db1 current_station)

/-- was_callsign_heard: one watching tick for a target callsign.  Fires
only when the evaluator fires and the current callsign equals the target;
the current record is appended either way. -/
def was_callsign_heard (now : ℚ) (db : DBFile) (current_station : Heard) (callsign : String) :
    Option (Bool × DBFile) :=
  (current_station[0]?).bind fun current_callsign =>
    let threshold := SECOND
    let db1 := if user_has_db db then db else create_db_for_user db current_station
    let previous_station := read_previously_heard (db1.getD [])
    (new_activity now previous_station current_station threshold).bind fun fired =>
      if fired then
        if current_callsign = callsign then some (true, save_last_heard db1 current_station)
        else some (false, save_last_heard db1 current_station)
      else some (false, save_last_heard db1 current_station)

-- Helper lemmas (shared; none of them is a claim theorem).

theorem rat_floor_eq_floor (q : ℚ) : Rat.floor q = ⌊q⌋ := by
  rw [Rat.floor_def', Rat.floor_def]

theorem floor_le_pyRound (q : ℚ) : ⌊q⌋ ≤ pyRound q := by
  simp only [pyRound, rat_floor_eq_floor]
  split
  · exact le_of_lt (lt_add_one _)
  · split
    · exact le_refl _
    · split
      · exact le_refl _
      · exact le_of_lt (lt_add_one _)

theorem one_le_pyRound {q : ℚ} (h : 1 ≤ q) : 1 ≤ pyRound q :=
  le_trans (Int.le_floor.mpr (by exact_mod_cast h)) (floor_le_pyRound q)

theorem MINUTE_eq : MINUTE = 60 := by norm_num [MINUTE, SECOND]

theorem HOUR_eq : HOUR = 3600 := by norm_num [HOUR, MINUTE_eq]

theorem DAY_eq : DAY = 86400 := by norm_num [DAY, HOUR_eq]

theorem pet_at_day_boundary : print_elapsed_time 86400 = none := by
  simp only [print_elapsed_time, minutesBranch, hoursBranch, daysBranch,
    SECOND, MINUTE_eq, HOUR_eq, DAY_eq]
  norm_num

/-- C2: the elapsed-time formatter satisfies the listed boundary values as
far as the code goes, except that at exactly 86400 every branch guard
fails and the function returns None instead of "1 day"; this theorem
states the amended list. -/
theorem print_elapsed_time_boundaries :
    print_elapsed_time 1 = some "1 second" ∧
    print_elapsed_time 59 = some "59 seconds" ∧
    print_elapsed_time 60 = some "1 minute" ∧
    print_elapsed_time 3600 = some "1 hour" ∧
    print_elapsed_time 86400 = none ∧
    print_elapsed_time 172800 = some "2 days" := by
  refine ⟨?_, ?_, ?_, ?_, pet_at_day_boundary, ?_⟩
  · simp [print_elapsed_time, SECOND]
  · have h59 : pyRound 59 = 59 := by simp [pyRound, rat_floor_eq_floor]
    simp only [print_elapsed_time, SECOND, MINUTE_eq]
    norm_num [h59]
    rfl
  · have h1 : pyRound (1 : ℚ) = 1 := by simp [pyRound, rat_floor_eq_floor]
    simp only [print_elapsed_time, minutesBranch, SECOND, MINUTE_eq, HOUR_eq]
    norm_num [h1]
  · have h1 : pyRound (1 : ℚ) = 1 := by simp [pyRound, rat_floor_eq_floor]
    simp only [print_elapsed_time, minutesBranch, hoursBranch,
      SECOND, MINUTE_eq, HOUR_eq, DAY_eq]
    norm_num [h1]
  · have h2 : pyRound (2 : ℚ) = 2 := by
      norm_num [pyRound, rat_floor_eq_floor]
    simp only [print_elapsed_time, minutesBranch, hoursBranch, daysBranch,
      SECOND, MINUTE_eq, HOUR_eq, DAY_eq]
    norm_num [h2]
    rfl

/-- C2 counterexample: at exactly 86400 the formatter does not produce
"1 day"; it produces no output at all. -/
theorem print_elapsed_time_at_86400_not_one_day :
    print_elapsed_time 86400 ≠ some "1 day" := by
  rw [pet_at_day_boundary]
  exact Option.noConfusion

theorem minutesBranch_isSome {d : ℚ} (hlo : MINUTE ≤ d) (hhi : d < HOUR) :
    ∃ s, minutesBranch d = some s := by
  have hm : 1 ≤ pyRound (d / MINUTE) := by
    refine one_le_pyRound ?_
    rw [le_div_iff₀ (by norm_num [MINUTE_eq])]
    linarith [hlo]
  simp only [minutesBranch, if_pos hhi]
  rcases eq_or_lt_of_le hm with h1 | h1
  · exact ⟨"1 minute", by rw [if_pos h1.symm]⟩
  · exact ⟨toString (pyRound (d / MINUTE)) ++ " minutes",
      by rw [if_neg (by omega), if_pos h1]⟩

theorem hoursBranch_isSome {d : ℚ} (hlo : HOUR ≤ d) (hhi : d < DAY) :
    ∃ s, hoursBranch d = some s := by
  have hm : 1 ≤ pyRound (d / HOUR) := by
    refine one_le_pyRound ?_
    rw [le_div_iff₀ (by norm_num [HOUR_eq])]
    linarith [hlo]
  simp only [hoursBranch, if_pos hhi]
  rcases eq_or_lt_of_le hm with h1 | h1
  · exact ⟨"1 hour", by rw [if_pos h1.symm]⟩
  · exact ⟨toString (pyRound (d / HOUR)) ++ " hours",
      by rw [if_neg (by omega), if_pos h1]⟩

theorem daysBranch_isSome {d : ℚ} (hlo : DAY < d) :
    ∃ s, daysBranch d = some s := by
  have hm : 1 ≤ pyRound (d / DAY) := by
    refine one_le_pyRound ?_
    rw [le_div_iff₀ (by norm_num [DAY_eq])]
    linarith [hlo]
  simp only [daysBranch, if_pos hlo]
  rcases eq_or_lt_of_le hm with h1 | h1
  · exact ⟨"1 day", by rw [if_pos h1.symm]⟩
  · exact ⟨toString (pyRound (d / DAY)) ++ " days",
      by rw [if_neg (by omega), if_pos h1]⟩

/-- C8: the formatter is total except at exactly one point: it returns
None exactly at duration 86400, where the hours guard 86400 < 86400 and
the days guard 86400 > 86400 both fail; at every other rational duration
it returns a string. -/
theorem print_elapsed_time_none_iff (d : ℚ) :
    print_elapsed_time d = none ↔ d = 86400 := by
  constructor
  · intro h
    simp only [print_elapsed_time] at h
    by_cases h1 : d = SECOND
    · rw [if_pos h1] at h
      exact absurd h (by simp)
    rw [if_neg h1] at h
    by_cases h2 : d < MINUTE
    · rw [if_pos h2] at h
      exact absurd h (by simp)
    rw [if_neg h2] at h
    push_neg at h2
    by_cases h3 : d < HOUR
    · obtain ⟨s, hs⟩ := minutesBranch_isSome h2 h3
      rw [hs] at h
      exact absurd h (by simp)
    push_neg at h3
    have hmb : minutesBranch d = none := by
      simp [minutesBranch, not_lt.mpr h3]
    rw [hmb] at h
    by_cases h4 : d < DAY
    · obtain ⟨s, hs⟩ := hoursBranch_isSome h3 h4
      rw [hs] at h
      exact absurd h (by simp)
    push_neg at h4
    have hhb : hoursBranch d = none := by
      simp [hoursBranch, not_lt.mpr h4]
    rw [hhb] at h
    by_contra hne
    have hgt : DAY < d := lt_of_le_of_ne h4 (fun hEq => hne (by rw [← hEq, DAY_eq]))
    obtain ⟨s, hs⟩ := daysBranch_isSome hgt
    rw [hs] at h
    exact absurd h (by simp)
  · intro h
    rw [h]
    exact pet_at_day_boundary

-- Evaluator lemmas.

theorem new_activity_self {now : ℚ} {p : Heard} {t : ℚ} {ts : String} {e : ℚ}
    (hts : p[1]? = some ts) (he : calculate_elapsed_time now ts = some e) :
    new_activity now p p t = some false := by
  simp [new_activity, hts, he]

theorem new_activity_fire {now : ℚ} {p c : Heard} {t : ℚ} {ts : String} {e : ℚ}
    (hts : p[1]? = some ts) (he : calculate_elapsed_time now ts = some e)
    (hne : p ≠ c) (hgt : e > t) :
    new_activity now p c t = some true := by
  simp [new_activity, hts, he, hne, hgt]

/-- C1: the activity evaluator returns true iff the record changed
structurally and the elapsed time since the timestamp of the previous
record, measured at the evaluation instant, strictly exceeds the
threshold; in particular a record never counts as new activity against
itself. -/
theorem new_activity_iff (now : ℚ) (p c : Heard) (t : ℚ) (ts : String) (e : ℚ)
    (hts : p[1]? = some ts) (he : calculate_elapsed_time now ts = some e) :
    (new_activity now p c t = some true ↔ (p ≠ c ∧ e > t)) ∧
    new_activity now p p t = some false := by
  refine ⟨?_, new_activity_self hts he⟩
  simp only [new_activity, hts, he]
  by_cases hpc : p ≠ c
  · by_cases hgt : e > t
    · simp [hpc, hgt, he]
    · simp [hpc, hgt, he]
  · simp [hpc, he]

/-- C1 witness at a concrete input. -/
theorem new_activity_iff_witness :
    (new_activity 20 ["A", "19700101000010", ""] ["B", "19700101000010", ""] 5 = some true ↔
      ((["A", "19700101000010", ""] : Heard) ≠ ["B", "19700101000010", ""] ∧ (10 : ℚ) > 5)) ∧
    new_activity 20 ["A", "19700101000010", ""] ["A", "19700101000010", ""] 5 = some false :=
  new_activity_iff 20 ["A", "19700101000010", ""] ["B", "19700101000010", ""] 5
    "19700101000010" 10 rfl
    (by
      have hp : parseTimestamp "19700101000010" = some 10 := by decide
      simp [calculate_elapsed_time, hp]
      norm_num)

/-- C10: the evaluator reads the current record only through its equality
with the previous record: two current records that both differ from the
previous one produce the same decision, whatever their own fields hold. -/
theorem new_activity_current_irrelevant (now : ℚ) (p c1 c2 : Heard) (t : ℚ)
    (h1 : c1 ≠ p) (h2 : c2 ≠ p) :
    new_activity now p c1 t = new_activity now p c2 t := by
  simp only [new_activity]
  cases hts : p[1]? with
  | none => rfl
  | some ts =>
    simp only [Option.some_bind]
    cases he : calculate_elapsed_time now ts with
    | none => rfl
    | some e => simp [Ne.symm h1, Ne.symm h2]

/-- C10 witness at a concrete input. -/
theorem new_activity_current_irrelevant_witness :
    new_activity 20 ["A", "19700101000010", ""] ["B", "19700101000010", ""] 5 =
      new_activity 20 ["A", "19700101000010", ""] ["C", "bogus", "x"] 5 :=
  new_activity_current_irrelevant 20 ["A", "19700101000010", ""]
    ["B", "19700101000010", ""] ["C", "bogus", "x"] 5 (by decide) (by decide)

-- Store lemmas.

theorem save_getLast (db : DBFile) (r : Heard) :
    ∃ rows, save_last_heard db r = some rows ∧ rows.getLast? = some r := by
  unfold save_last_heard
  by_cases h : is_entry_in_db db r
  · rw [if_pos h]
    cases db with
    | none => simp [is_entry_in_db] at h
    | some rows =>
      refine ⟨rows, rfl, ?_⟩
      simpa [is_entry_in_db] using h
  · rw [if_neg h]
    exact ⟨db.getD [] ++ [r], rfl, by simp⟩

theorem save_of_last_eq {rows : List Heard} {r : Heard} (h : rows.getLast? = some r) :
    save_last_heard (some rows) r = some rows := by
  simp [save_last_heard, is_entry_in_db, h]

theorem save_save (db : DBFile) (r : Heard) :
    save_last_heard (save_last_heard db r) r = save_last_heard db r := by
  obtain ⟨rows, h1, h2⟩ := save_getLast db r
  rw [h1, save_of_last_eq h2]

theorem save_none (cur : Heard) : save_last_heard none cur = some [cur] := by
  simp [save_last_heard, is_entry_in_db]

theorem save_append {A B : Heard} (h : A ≠ B) :
    save_last_heard (some [A]) B = some [A, B] := by
  simp [save_last_heard, is_entry_in_db, h]

/-- C6: the store append is idempotent on the last entry: when the record
equals the most recently appended row the append is a no-op, and two
consecutive appends of the same record store a single logical entry. -/
theorem save_last_heard_idempotent (db : DBFile) (rows : List Heard) (r : Heard)
    (db2 : DBFile) (r2 : Heard) (hdb : db = some rows) (hl : rows.getLast? = some r) :
    save_last_heard db r = db ∧
    save_last_heard (save_last_heard db2 r2) r2 = save_last_heard db2 r2 :=
  ⟨by rw [hdb]; exact save_of_last_eq hl, save_save db2 r2⟩

/-- C6 witness at a concrete input. -/
theorem save_last_heard_idempotent_witness :
    save_last_heard (some [["A", "19700101000010", ""]]) ["A", "19700101000010", ""] =
      some [["A", "19700101000010", ""]] ∧
    save_last_heard (save_last_heard none ["B", "19700101000010", ""])
        ["B", "19700101000010", ""] =
      save_last_heard none ["B", "19700101000010", ""] :=
  save_last_heard_idempotent (some [["A", "19700101000010", ""]])
    [["A", "19700101000010", ""]] ["A", "19700101000010", ""]
    none ["B", "19700101000010", ""] rfl rfl

/-- C9: deleting the stored state of a key never raises: a key with no
file is left alone (its state stays none) because the os.remove call is
guarded by user_has_db, and a key with a file has the entire file removed. -/
theorem delete_user_db_total (db : DBFile) : delete_user_db db = Except.ok none := by
  cases db with
  | none => rfl
  | some rows => rfl

-- Session lemmas.

theorem check_activity_db_some {now t : ℚ} {rows : List Heard} {L cur : Heard} {b : Bool}
    (hL : rows.getLast? = some L)
    (hna : new_activity now L cur t = some b) :
    check_activity now (some rows) cur t = some (b, save_last_heard (some rows) cur) := by
  simp only [check_activity, user_has_db, Option.isSome_some, if_true, Option.getD_some,
    read_previously_heard, hL, hna, Option.some_bind]
  cases b <;> simp

theorem check_activity_bootstrap {now t : ℚ} {cur : Heard} {ts : String} {e : ℚ}
    (hts : cur[1]? = some ts) (he : calculate_elapsed_time now ts = some e) :
    check_activity now none cur t = some (false, some [cur]) := by
  have hself := new_activity_self (t := t) hts he
  simp only [check_activity, user_has_db, create_db_for_user, save_none, Option.isSome_none,
    Bool.false_eq_true, if_false, Option.getD_some, read_previously_heard,
    List.getLast?_singleton, hself, Option.some_bind]
  rw [save_of_last_eq (by simp)]

theorem check_activity_snd {now t : ℚ} {db out : DBFile} {cur : Heard} {b : Bool}
    (h : check_activity now db cur t = some (b, out)) :
    out = save_last_heard (if user_has_db db then db else create_db_for_user db cur) cur := by
  simp only [check_activity] at h
  cases hna : new_activity now
      (read_previously_heard ((if user_has_db db then db
        else create_db_for_user db cur).getD [])) cur t with
  | none => rw [hna] at h; simp at h
  | some fired =>
    rw [hna] at h
    simp only [Option.some_bind] at h
    cases fired with
    | true => simpa using (Prod.mk.injEq _ _ _ _ ▸ Option.some.inj (by simpa using h)).2.symm
    | false => simpa using (Prod.mk.injEq _ _ _ _ ▸ Option.some.inj (by simpa using h)).2.symm

/-- C3: a first tracking tick against an empty store returns false and
leaves exactly one stored entry, the currently fetched record. -/
theorem check_activity_first_tick (now : ℚ) (current : Heard) (t : ℚ)
    (ts : String) (pt : ℤ)
    (hts : current[1]? = some ts) (hp : parseTimestamp ts = some pt) :
    check_activity now none current t = some (false, some [current]) :=
  check_activity_bootstrap (e := now - pt) hts (by simp [calculate_elapsed_time, hp])

/-- C3 witness at a concrete input. -/
theorem check_activity_first_tick_witness :
    check_activity 1704067210 none ["N0CALL", "20240101000000", ""] 21600 =
      some (false, some [["N0CALL", "20240101000000", ""]]) :=
  check_activity_first_tick 1704067210 ["N0CALL", "20240101000000", ""] 21600
    "20240101000000" 1704067200 rfl (by decide)

/-- C4: on the fetched sequence A, A, B with threshold 21600, where the
timestamp of A is more than 21600 seconds in the past by the third tick,
the three successive tracking ticks fire false, false, true. -/
theorem check_activity_track_sequence (now1 now2 now3 : ℚ) (A B : Heard)
    (tsA : String) (pA : ℤ)
    (hts : A[1]? = some tsA) (hp : parseTimestamp tsA = some pA) (hAB : A ≠ B)
    (hgap : now3 - pA > 21600) :
    check_activity now1 none A 21600 = some (false, some [A]) ∧
    check_activity now2 (some [A]) A 21600 = some (false, some [A]) ∧
    check_activity now3 (some [A]) B 21600 = some (true, some [A, B]) := by
  have he1 : calculate_elapsed_time now1 tsA = some (now1 - pA) := by
    simp [calculate_elapsed_time, hp]
  have he2 : calculate_elapsed_time now2 tsA = some (now2 - pA) := by
    simp [calculate_elapsed_time, hp]
  have he3 : calculate_elapsed_time now3 tsA = some (now3 - pA) := by
    simp [calculate_elapsed_time, hp]
  refine ⟨check_activity_bootstrap hts he1, ?_, ?_⟩
  · rw [check_activity_db_some (by simp) (new_activity_self hts he2),
      save_of_last_eq (by simp)]
  · rw [check_activity_db_some (by simp) (new_activity_fire hts he3 hAB hgap),
      save_append hAB]

/-- C4 witness at a concrete input. -/
theorem check_activity_track_sequence_witness :
    check_activity 1704067210 none ["N0CALL", "20240101000000", ""] 21600 =
      some (false, some [["N0CALL", "20240101000000", ""]]) ∧
    check_activity 1704067270 (some [["N0CALL", "20240101000000", ""]])
        ["N0CALL", "20240101000000", ""] 21600 =
      some (false, some [["N0CALL", "20240101000000", ""]]) ∧
    check_activity 1704092410 (some [["N0CALL", "20240101000000", ""]])
        ["K1ABC", "20240101070000", ""] 21600 =
      some (true, some [["N0CALL", "20240101000000", ""], ["K1ABC", "20240101070000", ""]]) :=
  check_activity_track_sequence 1704067210 1704067270 1704092410
    ["N0CALL", "20240101000000", ""] ["K1ABC", "20240101070000", ""]
    "20240101000000" 1704067200 rfl (by decide) (by decide) (by norm_num)

-- Watching lemmas.

theorem wch_db_some {now : ℚ} {rows : List Heard} {L cur : Heard} {ccs cs : String} {b : Bool}
    (hc0 : cur[0]? = some ccs) (hL : rows.getLast? = some L)
    (hna : new_activity now L cur SECOND = some b) :
    was_callsign_heard now (some rows) cur cs =
      some (b && decide (ccs = cs), save_last_heard (some rows) cur) := by
  simp only [was_callsign_heard, hc0, Option.some_bind, user_has_db, Option.isSome_some,
    if_true, Option.getD_some, read_previously_heard, hL, hna]
  cases b with
  | false => simp
  | true =>
    by_cases hcs : ccs = cs
    · simp [hcs]
    · simp [hcs]

theorem wch_bootstrap {now : ℚ} {cur : Heard} {ccs cs ts : String} {e : ℚ}
    (hc0 : cur[0]? = some ccs) (hts : cur[1]? = some ts)
    (he : calculate_elapsed_time now ts = some e) :
    was_callsign_heard now none cur cs = some (false, some [cur]) := by
  have hself := new_activity_self (t := SECOND) hts he
  simp only [was_callsign_heard, hc0, Option.some_bind, user_has_db, Option.isSome_none,
    Bool.false_eq_true, if_false, create_db_for_user, save_none, Option.getD_some,
    read_previously_heard, List.getLast?_singleton, hself]
  rw [save_of_last_eq (by simp)]

/-- C5: on the fetched sequence A, A, B over three watching ticks, where
the timestamp of A is more than one second in the past by the third tick
and A and B carry different callsigns, the target callsign of B yields the
fired sequence false, false, true while the target callsign of A yields
false, false, false. -/
theorem was_callsign_heard_sequence (now1 now2 now3 : ℚ) (A B : Heard)
    (ca cb tsA : String) (pA : ℤ)
    (hA0 : A[0]? = some ca) (hB0 : B[0]? = some cb) (hcacb : ca ≠ cb)
    (hts : A[1]? = some tsA) (hp : parseTimestamp tsA = some pA)
    (hgap : now3 - pA > 1) :
    was_callsign_heard now1 none A cb = some (false, some [A]) ∧
    was_callsign_heard now2 (some [A]) A cb = some (false, some [A]) ∧
    was_callsign_heard now3 (some [A]) B cb = some (true, some [A, B]) ∧
    was_callsign_heard now1 none A ca = some (false, some [A]) ∧
    was_callsign_heard now2 (some [A]) A ca = some (false, some [A]) ∧
    was_callsign_heard now3 (some [A]) B ca = some (false, some [A, B]) := by
  have hAB : A ≠ B := by
    intro h
    rw [h, hB0] at hA0
    exact hcacb (Option.some.inj hA0).symm
  have he1 : calculate_elapsed_time now1 tsA = some (now1 - pA) := by
    simp [calculate_elapsed_time, hp]
  have he2 : calculate_elapsed_time now2 tsA = some (now2 - pA) := by
    simp [calculate_elapsed_time, hp]
  have he3 : calculate_elapsed_time now3 tsA = some (now3 - pA) := by
    simp [calculate_elapsed_time, hp]
  have hgt : now3 - (pA : ℚ) > SECOND := by simpa [SECOND] using hgap
  have hfire := new_activity_fire hts he3 hAB hgt
  refine ⟨wch_bootstrap hA0 hts he1, ?_, ?_, wch_bootstrap hA0 hts he1, ?_, ?_⟩
  · rw [wch_db_some hA0 (by simp) (new_activity_self hts he2),
      save_of_last_eq (by simp)]
    simp
  · rw [wch_db_some hB0 (by simp) hfire, save_append hAB]
    simp
  · rw [wch_db_some hA0 (by simp) (new_activity_self hts he2),
      save_of_last_eq (by simp)]
    simp
  · rw [wch_db_some hB0 (by simp) hfire, save_append hAB]
    simp [Ne.symm hcacb]

/-- C5 witness at a concrete input. -/
theorem was_callsign_heard_sequence_witness :
    was_callsign_heard 1704067210 none ["N0CALL", "20240101000000", ""] "K1ABC" =
      some (false, some [["N0CALL", "20240101000000", ""]]) ∧
    was_callsign_heard 1704067270 (some [["N0CALL", "20240101000000", ""]])
        ["N0CALL", "20240101000000", ""] "K1ABC" =
      some (false, some [["N0CALL", "20240101000000", ""]]) ∧
    was_callsign_heard 1704092410 (some [["N0CALL", "20240101000000", ""]])
        ["K1ABC", "20240101070000", ""] "K1ABC" =
      some (true, some [["N0CALL", "20240101000000", ""], ["K1ABC", "20240101070000", ""]]) ∧
    was_callsign_heard 1704067210 none ["N0CALL", "20240101000000", ""] "N0CALL" =
      some (false, some [["N0CALL", "20240101000000", ""]]) ∧
    was_callsign_heard 1704067270 (some [["N0CALL", "20240101000000", ""]])
        ["N0CALL", "20240101000000", ""] "N0CALL" =
      some (false, some [["N0CALL", "20240101000000", ""]]) ∧
    was_callsign_heard 1704092410 (some [["N0CALL", "20240101000000", ""]])
        ["K1ABC", "20240101070000", ""] "N0CALL" =
      some (false, some [["N0CALL", "20240101000000", ""], ["K1ABC", "20240101070000", ""]]) :=
  was_callsign_heard_sequence 1704067210 1704067270 1704092410
    ["N0CALL", "20240101000000", ""] ["K1ABC", "20240101070000", ""]
    "N0CALL" "K1ABC" "20240101000000" 1704067200
    rfl rfl (by decide) rfl (by decide) (by norm_num)

theorem wch_snd {now : ℚ} {db out : DBFile} {cur : Heard} {cs : String} {b : Bool}
    (h : was_callsign_heard now db cur cs = some (b, out)) :
    out = save_last_heard (if user_has_db db then db else create_db_for_user db cur) cur := by
  simp only [was_callsign_heard] at h
  set db1 := if user_has_db db then db else create_db_for_user db cur with hdb1
  cases hc0 : cur[0]? with
  | none => rw [hc0] at h; simp at h
  | some ccs =>
    rw [hc0] at h
    simp only [Option.some_bind] at h
    cases hna : new_activity now (read_previously_heard (db1.getD [])) cur SECOND with
    | none => rw [hna] at h; simp at h
    | some fired =>
      rw [hna] at h
      simp only [Option.some_bind] at h
      split_ifs at h <;>
        (simp only [Option.some.injEq, Prod.mk.injEq] at h; exact h.2.symm)

/-- C7: every completed tick, tracking or watching, fired or not, leaves
the fetched record as the last stored entry of the subscription key. -/
theorem tick_always_appends (now : ℚ) (db dbw : DBFile) (cur curw : Heard) (t : ℚ)
    (cs : String) (b bw : Bool) (out outw : DBFile)
    (htrack : check_activity now db cur t = some (b, out))
    (hwatch : was_callsign_heard now dbw curw cs = some (bw, outw)) :
    Option.bind out List.getLast? = some cur ∧
    Option.bind outw List.getLast? = some curw := by
  constructor
  · obtain ⟨rows, hr, hlast⟩ :=
      save_getLast (if user_has_db db then db else create_db_for_user db cur) cur
    rw [check_activity_snd htrack, hr]
    simpa using hlast
  · obtain ⟨rows, hr, hlast⟩ :=
      save_getLast (if user_has_db dbw then dbw else create_db_for_user dbw curw) curw
    rw [wch_snd hwatch, hr]
    simpa using hlast

/-- C7 witness at a concrete input. -/
theorem tick_always_appends_witness :
    Option.bind (some [["N0CALL", "20240101000000", ""]]) List.getLast? =
      some ["N0CALL", "20240101000000", ""] ∧
    Option.bind (some [["N0CALL", "20240101000000", ""]]) List.getLast? =
      some ["N0CALL", "20240101000000", ""] :=
  tick_always_appends 1704067210 none none ["N0CALL", "20240101000000", ""]
    ["N0CALL", "20240101000000", ""] 21600 "K1ABC" false false
    (some [["N0CALL", "20240101000000", ""]]) (some [["N0CALL", "20240101000000", ""]])
    (check_activity_bootstrap (e := 10) rfl
      (by
        have hp : parseTimestamp "20240101000000" = some 1704067200 := by decide
        simp [calculate_elapsed_time, hp]
        norm_num))
    (wch_bootstrap (e := 10) rfl rfl
      (by
        have hp : parseTimestamp "20240101000000" = some 1704067200 := by decide
        simp [calculate_elapsed_time, hp]
        norm_num))

/-- C8 witness at a concrete input. -/
theorem print_elapsed_time_none_iff_witness :
    print_elapsed_time 86400 = none ↔ (86400 : ℚ) = 86400 :=
  print_elapsed_time_none_iff 86400

/-- C9 witness at a concrete input. -/
theorem delete_user_db_total_witness :
    delete_user_db (some [["N0CALL", "20240101000000", ""]]) = Except.ok none :=
  delete_user_db_total (some [["N0CALL", "20240101000000", ""]])
